import Mathlib

/-
  A shallow embedding of the query-part plan-assembly stage of the match
  planner (src/graph/planner/match/MatchPlanner.cpp), together with proofs of
  the specified properties of `connectMatchPlan`, `genQueryPartPlan` and
  `transform`.

  The plan graph is modelled as an arena of plan nodes addressed by stable
  indices; a `SubPlan` holds the (possibly null) root and tail indices.  The
  external collaborators (per-clause sub-planners, the segments connector,
  plan-node constructors) are not part of the given source file; they are
  modelled from the spec, with sub-planners represented as oracles carried by
  the clause contexts.  All C++ reference mutation is made explicit by
  threading a `PlannerState` value.
-/

set_option linter.unusedVariables false

namespace MatchPlannerModel

/-- Modelled from the spec: the AliasType enumeration of the Cypher AST
context is declared outside the given source file; the spec lists the kinds
Node, Edge, EdgeList and Scalar. -/
inductive AliasType where
  | node
  | edge
  | edgeList
  | scalar
deriving DecidableEq, Repr

/-- Modelled from the spec: the display names used by the binding-type
conflict message (the AliasTypeName table of the C++ source is declared
outside the given file). -/
def aliasTypeName : AliasType → String
  | .node => "Node"
  | .edge => "Edge"
  | .edgeList => "EdgeList"
  | .scalar => "Scalar"

/-- The two error constructors of Status used by the planner:
Status::Error and Status::SemanticError, each carrying a message. -/
inductive PlanError where
  | error (msg : String)
  | semanticError (msg : String)
deriving DecidableEq, Repr

/-- Plan-node discriminants the assembler inspects or creates; every other
node kind produced by a sub-planner is `other`. -/
inductive PlanNodeKind where
  | start
  | argument
  | biCartesianProduct
  | biInnerJoin
  | biLeftJoin
  | other (tag : Nat)
deriving DecidableEq, Repr

/-- A plan node: its kind, its dependency edges (arena indices), its settable
input variable, its output variable, its output column names, the join keys
(for join nodes) and whether it is a single-input node. -/
structure PlanNode where
  kind : PlanNodeKind
  deps : List Nat
  inputVar : String
  outputVar : String
  colNames : List String
  joinKeys : List String
  singleInput : Bool
deriving DecidableEq, Repr

/-- The node a null pointer dereference would see; used only behind the
null-guards the C++ code performs itself. -/
def defaultPlanNode : PlanNode :=
  { kind := .other 0, deps := [], inputVar := "", outputVar := "",
    colNames := [], joinKeys := [], singleInput := false }

/-- SubPlan: root and tail pointers into the arena; `none` is the nullptr
sentinel of the empty accumulator. -/
structure SubPlan where
  root : Option Nat
  tail : Option Nat
deriving DecidableEq, Repr

/-- The state threaded through plan assembly: the arena of allocated plan
nodes (the query context's object pool), the anonymous-variable counter and
the planner's tailConnected flag. -/
structure PlannerState where
  arena : List PlanNode
  anonCounter : Nat
  tailConnected : Bool
deriving DecidableEq, Repr

deriving instance DecidableEq for Except

/-- Dereference a possibly-null node pointer. -/
def getNodeD (arena : List PlanNode) : Option Nat → PlanNode
  | some i => arena.getD i defaultPlanNode
  | none => defaultPlanNode

/-- PlanNode::setInputVar through a possibly-null pointer. -/
def setInputVarAt (arena : List PlanNode) (i : Option Nat) (v : String) : List PlanNode :=
  match i with
  | some i => arena.set i { arena.getD i defaultPlanNode with inputVar := v }
  | none => arena

/-- PlanNode::setDep(0, d) through a possibly-null pointer. -/
def setDep0At (arena : List PlanNode) (i : Option Nat) (d : Nat) : List PlanNode :=
  match i with
  | some i =>
      arena.set i
        { arena.getD i defaultPlanNode with
          deps := d :: (arena.getD i defaultPlanNode).deps.drop 1 }
  | none => arena

/-- Description of the fragment a sub-planner would build: the nodes it
allocates (dependency indices relative to the fragment) and which of them are
the fragment's root and tail. -/
structure FragmentSpec where
  nodes : List PlanNode
  rootIdx : Nat
  tailIdx : Nat
deriving DecidableEq, Repr

/-- Allocate a sub-planner fragment into the arena: its nodes are appended
and their dependency indices shifted to absolute ids, so every fragment is
freshly allocated, as the C++ sub-planners allocate new plan nodes in the
query context's object pool. -/
def allocFragment (arena : List PlanNode) (f : FragmentSpec) : List PlanNode × SubPlan :=
  let off := arena.length
  (arena ++ f.nodes.map (fun n => { n with deps := n.deps.map (fun d => d + off) }),
   { root := some (off + f.rootIdx), tail := some (off + f.tailIdx) })

/-- Run a sub-planner oracle: either propagate its error or allocate the
fragment it describes. -/
def runPlanner (st : PlannerState) (r : Except PlanError FragmentSpec) :
    PlannerState × Except PlanError SubPlan :=
  match r with
  | .error e => (st, .error e)
  | .ok f =>
      let (arena2, sp) := allocFragment st.arena f
      ({ st with arena := arena2 }, .ok sp)

/-- Expressions, restricted to the structure the planner inspects: the
kVarProperty and kLabel nodes collected by ExpressionUtils::collectAll; every
other expression kind only contributes its children to the traversal. -/
inductive Expr where
  | constant (v : String)
  | label (name : String)
  | varProperty (sym prop : String)
  | unary (child : Expr)
  | binary (lhs rhs : Expr)
deriving DecidableEq, Repr

/-- ExpressionUtils::collectAll over the kinds kVarProperty and kLabel. -/
def collectVarPropAndLabel : Expr → List Expr
  | .constant _ => []
  | .label n => [.label n]
  | .varProperty s p => [.varProperty s p]
  | .unary c => collectVarPropAndLabel c
  | .binary l r => collectVarPropAndLabel l ++ collectVarPropAndLabel r

/-- The alias-name extraction loop of connectMatchPlan: prop() of a
kVarProperty expression, name() of a kLabel expression. -/
def filterAliasNames (e : Expr) : List String :=
  (collectVarPropAndLabel e).filterMap fun ex =>
    match ex with
    | .varProperty _ p => some p
    | .label n => some n
    | _ => none

/-- aliasesAvailable.find(name): the kind the name is bound to, if any. -/
def lookupAliasType (m : List (String × AliasType)) (a : String) : Option AliasType :=
  (m.find? (fun p => p.1 == a)).map (fun p => p.2)

/-- aliasesGenerated.find(name) != aliasesGenerated.end(). -/
def hasAlias (m : List (String × AliasType)) (a : String) : Bool :=
  (m.find? (fun p => p.1 == a)).isSome

/-- WhereClauseContext: the filter expression, and the external
WhereClausePlanner modelled as an oracle from the inputColNames the assembler
writes onto the context to the fragment the planner would build. -/
structure WhereClauseContext where
  filter : Option Expr
  planFn : List String → Except PlanError FragmentSpec

/-- MatchClauseContext: the clause's optionality, its WHERE sub-clause, the
aliases it generates, the aliases available from already-folded clauses, and
the external MatchClausePlanner modelled as an oracle. -/
structure MatchClauseContext where
  isOptional : Bool
  whereCtx : Option WhereClauseContext
  aliasesGenerated : List (String × AliasType)
  aliasesAvailable : List (String × AliasType)
  planResult : Except PlanError FragmentSpec

/-- The clause kinds genPlan dispatches on. -/
inductive CypherClauseKind where
  | kMatch
  | kUnwind
  | kWith
  | kReturn
  | kOther
deriving DecidableEq, Repr

/-- The boundary clause context (WITH / RETURN / UNWIND): its clause kind,
the initial value of its inputColNames field, and its sub-planner modelled as
an oracle from the inputColNames finally written by the assembler. -/
structure BoundaryContext where
  kind : CypherClauseKind
  inputColNames : List String
  planFn : List String → Except PlanError FragmentSpec

/-- A query part: its matching clauses followed by its boundary clause. -/
structure QueryPart where
  matchs : List MatchClauseContext
  boundary : BoundaryContext

/-- Sentence kinds as far as MatchPlanner::transform inspects them. -/
inductive SentenceKind where
  | kMatch
  | kOther
deriving DecidableEq, Repr

/-- MatchPlanner::genPlan: dispatch on the clause kind to the per-clause
sub-planner (external, modelled as the clause's oracle); unknown kinds are
rejected with Status::Error. -/
def genPlan (st : PlannerState) (kind : CypherClauseKind)
    (oracle : Except PlanError FragmentSpec) : PlannerState × Except PlanError SubPlan :=
  match kind with
  | .kMatch => runPlanner st oracle
  | .kUnwind => runPlanner st oracle
  | .kWith => runPlanner st oracle
  | .kReturn => runPlanner st oracle
  | .kOther => (st, .error (.error "Unsupported clause."))

/-- genPlan applied to a MatchClauseContext (whose clause kind is kMatch). -/
def genPlanMatch (st : PlannerState) (m : MatchClauseContext) :
    PlannerState × Except PlanError SubPlan :=
  genPlan st .kMatch m.planResult

/-- WhereClausePlanner::transform on a where context whose inputColNames the
assembler has just set to `cols`. -/
def genPlanWhere (st : PlannerState) (w : WhereClauseContext) (cols : List String) :
    PlannerState × Except PlanError SubPlan :=
  runPlanner st (w.planFn cols)

/-- genPlan applied to the boundary clause context, whose inputColNames the
assembler may have set to `cols`. -/
def genPlanBoundary (st : PlannerState) (b : BoundaryContext) (cols : List String) :
    PlannerState × Except PlanError SubPlan :=
  genPlan st b.kind (b.planFn cols)

/-- Modelled from the spec: SegmentsConnector::innerJoin builds a two-input
inner-join plan node over the two fragment roots, keyed on the intersected
aliases; the combined fragment is rooted at the join node and keeps the left
fragment's tail. -/
def innerJoin (st : PlannerState) (left right : SubPlan) (keys : List String) :
    PlannerState × SubPlan :=
  let id := st.arena.length
  let node : PlanNode :=
    { kind := .biInnerJoin, deps := [left.root.getD 0, right.root.getD 0],
      inputVar := "", outputVar := "__node_" ++ toString id,
      colNames := (getNodeD st.arena left.root).colNames
        ++ (getNodeD st.arena right.root).colNames,
      joinKeys := keys, singleInput := false }
  ({ st with arena := st.arena ++ [node] }, { root := some id, tail := left.tail })

/-- Modelled from the spec: SegmentsConnector::leftJoin is innerJoin with
left-outer semantics; it preserves all left rows. -/
def leftJoin (st : PlannerState) (left right : SubPlan) (keys : List String) :
    PlannerState × SubPlan :=
  let id := st.arena.length
  let node : PlanNode :=
    { kind := .biLeftJoin, deps := [left.root.getD 0, right.root.getD 0],
      inputVar := "", outputVar := "__node_" ++ toString id,
      colNames := (getNodeD st.arena left.root).colNames
        ++ (getNodeD st.arena right.root).colNames,
      joinKeys := keys, singleInput := false }
  ({ st with arena := st.arena ++ [node] }, { root := some id, tail := left.tail })

/-- Modelled from the spec: SegmentsConnector::addInput ("prepend fragment")
chains the lower fragment's root as the input dependency of the upper
fragment's tail; the combined fragment is rooted at the upper fragment's
root, and keepLowerTail selects whether the combined tail is the lower
fragment's original tail or the upper fragment's tail. -/
def addInput (st : PlannerState) (upper lower : SubPlan) (keepLowerTail : Bool) :
    PlannerState × SubPlan :=
  let arena1 := setDep0At st.arena upper.tail (lower.root.getD 0)
  let arena2 := setInputVarAt arena1 upper.tail (getNodeD st.arena lower.root).outputVar
  ({ st with arena := arena2 },
   { root := upper.root, tail := if keepLowerTail then lower.tail else upper.tail })

/-- Modelled from the spec: BiCartesianProduct::make allocates a two-input
cartesian-product plan node over the two roots and returns it. -/
def mkBiCartesianProduct (st : PlannerState) (l r : Option Nat) : PlannerState × Nat :=
  let id := st.arena.length
  let node : PlanNode :=
    { kind := .biCartesianProduct, deps := [l.getD 0, r.getD 0],
      inputVar := "", outputVar := "__node_" ++ toString id,
      colNames := (getNodeD st.arena l).colNames ++ (getNodeD st.arena r).colNames,
      joinKeys := [], singleInput := false }
  ({ st with arena := st.arena ++ [node] }, id)

/-- Modelled from the spec: StartNode::make allocates a Start plan node with
zero dependencies; a Start node is not a single-input node. -/
def mkStartNode (st : PlannerState) : PlannerState × Nat :=
  let id := st.arena.length
  let node : PlanNode :=
    { kind := .start, deps := [], inputVar := "",
      outputVar := "__node_" ++ toString id, colNames := [], joinKeys := [],
      singleInput := false }
  ({ st with arena := st.arena ++ [node] }, id)

/-- The anonymous-variable generator of the query context. -/
def nextAnonVar (st : PlannerState) : PlannerState × String :=
  ({ st with anonCounter := st.anonCounter + 1 }, "__var_" ++ toString st.anonCounter)

/-- The intersected-aliases loop of connectMatchPlan: every alias the clause
generates is looked up among the available aliases; a kind mismatch or an
EdgeList-kinded shared alias aborts with a semantic error, and every other
shared alias joins the intersection. -/
def computeIntersectedAliases :
    List (String × AliasType) → List (String × AliasType) → Except PlanError (List String)
  | [], _ => .ok []
  | (a, t) :: rest, avail =>
      match lookupAliasType avail a with
      | some t2 =>
          if t2 ≠ t then
            .error (.semanticError (a ++ " binding to different type: "
              ++ aliasTypeName t ++ " vs " ++ aliasTypeName t2))
          else if t = .edgeList then
            .error (.semanticError (a ++ " defined with type EdgeList, which cannot be joined on"))
          else
            match computeIntersectedAliases rest avail with
            | .error e => .error e
            | .ok ks => .ok (a :: ks)
      | none => computeIntersectedAliases rest avail

/-- The cross-reference message of the optional-match WHERE scope check. -/
def optionalWhereScopeMsg : String :=
  "The where clause of optional match statement that reference variables defined by other statements is not supported yet."

/-- The argument-tail rebinding step of connectMatchPlan: if the match
fragment's tail is an Argument node, rebind its input variable to the
accumulator root's output variable. -/
def rebindArgumentTail (st : PlannerState) (queryPlan matchPlan : SubPlan) : PlannerState :=
  if (getNodeD st.arena matchPlan.tail).kind = .argument then
    { st with
      arena := setInputVarAt st.arena matchPlan.tail
        (getNodeD st.arena queryPlan.root).outputVar }
  else st

/-- The optional-match WHERE handling of connectMatchPlan: when the clause
has a WHERE sub-clause with a filter, validate that every variable the filter
references was generated by this clause, plan the filter over the match
fragment's output columns, and chain the match fragment into the filter via
addInput with keepLowerTail = true; without a filter the match fragment is
returned unfiltered. -/
def filterOptionalMatch (st : PlannerState) (matchPlan : SubPlan) (m : MatchClauseContext) :
    PlannerState × Except PlanError SubPlan :=
  match m.whereCtx with
  | some w =>
    match w.filter with
    | some f =>
        if (filterAliasNames f).all (fun a => hasAlias m.aliasesGenerated a) then
          match genPlanWhere st w (getNodeD st.arena matchPlan.root).colNames with
          | (st3, .error e) => (st3, .error e)
          | (st3, .ok wherePlan) =>
              let (st4, filtered) := addInput st3 wherePlan matchPlan true
              (st4, .ok filtered)
        else (st, .error (.semanticError optionalWhereScopeMsg))
    | none => (st, .ok matchPlan)
  | none => (st, .ok matchPlan)

/-- MatchPlanner::connectMatchPlan: fold one matching clause into the
accumulated plan.  Returns the updated planner state, the accumulator (which
the C++ takes by reference and may leave untouched) and the resulting Status
(`none` is Status::OK). -/
def connectMatchPlan (st : PlannerState) (queryPlan : SubPlan) (m : MatchClauseContext) :
    PlannerState × SubPlan × Option PlanError :=
  match genPlanMatch st m with
  | (st1, .error e) => (st1, queryPlan, some e)
  | (st1, .ok matchPlan) =>
    match queryPlan.root with
    | none => (st1, matchPlan, none)
    | some _ =>
      match computeIntersectedAliases m.aliasesGenerated m.aliasesAvailable with
      | .error e => (st1, queryPlan, some e)
      | .ok intersected =>
        match intersected with
        | [] =>
            let (st2, newRoot) := mkBiCartesianProduct st1 queryPlan.root matchPlan.root
            (st2, { queryPlan with root := some newRoot }, none)
        | _ :: _ =>
            let st2 := rebindArgumentTail st1 queryPlan matchPlan
            if m.isOptional then
              match filterOptionalMatch st2 matchPlan m with
              | (st3, .error e) => (st3, queryPlan, some e)
              | (st3, .ok filtered) =>
                  let (st4, joined) := leftJoin st3 queryPlan filtered intersected
                  (st4, joined, none)
            else
              let (st3, joined) := innerJoin st2 queryPlan matchPlan intersected
              (st3, joined, none)

/-- One iteration of the matching-clause loop of genQueryPartPlan: fold the
clause through connectMatchPlan, then, for a non-optional clause with a WHERE
sub-clause, plan the filter over the accumulator root's output columns and
chain it via addInput with keepLowerTail = true. -/
def foldOneMatch (st : PlannerState) (queryPlan : SubPlan) (m : MatchClauseContext) :
    PlannerState × SubPlan × Option PlanError :=
  match connectMatchPlan st queryPlan m with
  | (st1, qp1, some e) => (st1, qp1, some e)
  | (st1, qp1, none) =>
    match m.whereCtx with
    | some w =>
        if m.isOptional then (st1, qp1, none)
        else
          match genPlanWhere st1 w (getNodeD st1.arena qp1.root).colNames with
          | (st2, .error e) => (st2, qp1, some e)
          | (st2, .ok wherePlan) =>
              let (st3, qp2) := addInput st2 wherePlan qp1 true
              (st3, qp2, none)
    | none => (st1, qp1, none)

/-- The matching-clause loop of genQueryPartPlan. -/
def foldMatchClauses (st : PlannerState) (queryPlan : SubPlan) :
    List MatchClauseContext → PlannerState × SubPlan × Option PlanError
  | [] => (st, queryPlan, none)
  | m :: rest =>
    match foldOneMatch st queryPlan m with
    | (st1, qp1, none) => foldMatchClauses st1 qp1 rest
    | (st1, qp1, some e) => (st1, qp1, some e)

/-- The boundary step of genQueryPartPlan: set the boundary clause's
inputColNames to the accumulator root's output columns when the accumulator
is non-empty, plan the boundary clause, and either adopt its fragment (empty
accumulator) or chain it via addInput with keepLowerTail = false. -/
def connectBoundary (st : PlannerState) (queryPlan : SubPlan) (b : BoundaryContext) :
    PlannerState × SubPlan × Option PlanError :=
  let bcols :=
    match queryPlan.root with
    | some r => (st.arena.getD r defaultPlanNode).colNames
    | none => b.inputColNames
  match genPlanBoundary st b bcols with
  | (st1, .error e) => (st1, queryPlan, some e)
  | (st1, .ok boundaryPlan) =>
    match queryPlan.root with
    | none => (st1, boundaryPlan, none)
    | some _ =>
        let (st2, qp2) := addInput st1 boundaryPlan queryPlan false
        (st2, qp2, none)

/-- The anchoring step of genQueryPartPlan: if the tail is a single-input
node, give it a fresh anonymous input variable, and, if no Start node was
inserted for this query yet, allocate one Start node, make it the tail's
dependency 0, set tailConnected and make the Start node the new tail. -/
def anchorTail (st : PlannerState) (queryPlan : SubPlan) : PlannerState × SubPlan :=
  if (getNodeD st.arena queryPlan.tail).singleInput then
    let (st1, v) := nextAnonVar st
    let st2 := { st1 with arena := setInputVarAt st1.arena queryPlan.tail v }
    if st2.tailConnected then (st2, queryPlan)
    else
      let (st3, startId) := mkStartNode st2
      let st4 :=
        { st3 with
          arena := setDep0At st3.arena queryPlan.tail startId,
          tailConnected := true }
      (st4, { queryPlan with tail := some startId })
  else (st, queryPlan)

/-- MatchPlanner::genQueryPartPlan: fold the part's matching clauses, connect
the boundary clause, then anchor the tail. -/
def genQueryPartPlan (st : PlannerState) (queryPlan : SubPlan) (part : QueryPart) :
    PlannerState × SubPlan × Option PlanError :=
  match foldMatchClauses st queryPlan part.matchs with
  | (st1, qp1, some e) => (st1, qp1, some e)
  | (st1, qp1, none) =>
    match connectBoundary st1 qp1 part.boundary with
    | (st2, qp2, some e) => (st2, qp2, some e)
    | (st2, qp2, none) =>
        let (st3, qp3) := anchorTail st2 qp2
        (st3, qp3, none)

/-- The query-part loop of MatchPlanner::transform. -/
def transformLoop (st : PlannerState) (queryPlan : SubPlan) :
    List QueryPart → PlannerState × Except PlanError SubPlan
  | [] => (st, .ok queryPlan)
  | p :: rest =>
    match genQueryPartPlan st queryPlan p with
    | (st1, qp1, none) => transformLoop st1 qp1 rest
    | (st1, _, some e) => (st1, .error e)

/-- MatchPlanner::transform: reject non-MATCH sentences, then fold every
query part into one accumulated plan starting from the empty accumulator. -/
def transform (st : PlannerState) (k : SentenceKind) (parts : List QueryPart) :
    PlannerState × Except PlanError SubPlan :=
  match k with
  | .kMatch => transformLoop st { root := none, tail := none } parts
  | .kOther => (st, .error (.error "Only MATCH is accepted for match planner."))

/-- The number of Start nodes in the plan arena. -/
def countStart (arena : List PlanNode) : Nat :=
  arena.countP (fun n => n.kind == .start)

/-- A fragment description that contains no Start node. -/
def FragmentSpec.noStart (f : FragmentSpec) : Bool :=
  f.nodes.all (fun n => n.kind != .start)

/-- A sub-planner oracle that never produces a Start node. -/
def oracleNoStart : Except PlanError FragmentSpec → Prop
  | .ok f => f.noStart = true
  | .error _ => True

/-- A where context whose sub-planner never produces a Start node. -/
def WhereClauseContext.noStart (w : WhereClauseContext) : Prop :=
  ∀ cols, oracleNoStart (w.planFn cols)

/-- A match clause whose sub-planners never produce a Start node. -/
def MatchClauseContext.noStart (m : MatchClauseContext) : Prop :=
  oracleNoStart m.planResult ∧ ∀ w, m.whereCtx = some w → w.noStart

/-- A boundary clause whose sub-planner never produces a Start node. -/
def BoundaryContext.noStart (b : BoundaryContext) : Prop :=
  ∀ cols, oracleNoStart (b.planFn cols)

/-- A query part whose sub-planners never produce a Start node. -/
def QueryPart.noStart (p : QueryPart) : Prop :=
  (∀ m ∈ p.matchs, m.noStart) ∧ p.boundary.noStart

/-! ### Arena helper lemmas -/

theorem getD_set_ne (l : List PlanNode) (i j : Nat) (x d : PlanNode) (h : i ≠ j) :
    (l.set j x).getD i d = l.getD i d := by
  simp [List.getD_eq_getElem?_getD, List.getElem?_set_ne (Ne.symm h)]

theorem getD_set_self (l : List PlanNode) (j : Nat) (x d : PlanNode) (h : j < l.length) :
    (l.set j x).getD j d = x := by
  simp [List.getD_eq_getElem?_getD, List.getElem?_set_self, h]

theorem setInputVarAt_length (arena : List PlanNode) (i : Option Nat) (v : String) :
    (setInputVarAt arena i v).length = arena.length := by
  cases i <;> simp [setInputVarAt]

theorem setDep0At_length (arena : List PlanNode) (i : Option Nat) (d : Nat) :
    (setDep0At arena i d).length = arena.length := by
  cases i <;> simp [setDep0At]

theorem countStart_append (l1 l2 : List PlanNode) :
    countStart (l1 ++ l2) = countStart l1 + countStart l2 := by
  simp [countStart, List.countP_append]

theorem countStart_set_of_kind (l : List PlanNode) (j : Nat) (n : PlanNode)
    (h : n.kind = (l.getD j defaultPlanNode).kind) :
    countStart (l.set j n) = countStart l := by
  induction l generalizing j with
  | nil => simp
  | cons a t ih =>
      cases j with
      | zero =>
          simp only [List.getD_cons_zero] at h
          simp [countStart, List.countP_cons, h]
      | succ j =>
          simp only [List.getD_cons_succ] at h
          simp only [List.set_cons_succ, countStart, List.countP_cons]
          have := ih j h
          simp only [countStart] at this
          omega

theorem countStart_setInputVarAt (arena : List PlanNode) (i : Option Nat) (v : String) :
    countStart (setInputVarAt arena i v) = countStart arena := by
  cases i with
  | none => rfl
  | some j => exact countStart_set_of_kind _ j _ rfl

theorem countStart_setDep0At (arena : List PlanNode) (i : Option Nat) (d : Nat) :
    countStart (setDep0At arena i d) = countStart arena := by
  cases i with
  | none => rfl
  | some j => exact countStart_set_of_kind _ j _ rfl

theorem countStart_noStart_fragment (arena : List PlanNode) (f : FragmentSpec)
    (h : f.noStart = true) :
    countStart (f.nodes.map (fun n => { n with deps := n.deps.map (fun d => d + arena.length) }))
      = 0 := by
  apply List.countP_eq_zero.mpr
  intro a ha
  simp only [List.mem_map] at ha
  obtain ⟨b, hb, rfl⟩ := ha
  simp only [FragmentSpec.noStart, List.all_eq_true] at h
  have := h b hb
  simpa using this

/-! ### Shape lemmas for the planner primitives -/

theorem runPlanner_tailConnected (st : PlannerState) (r : Except PlanError FragmentSpec) :
    (runPlanner st r).1.tailConnected = st.tailConnected := by
  cases r <;> rfl

theorem runPlanner_countStart (st : PlannerState) (r : Except PlanError FragmentSpec)
    (h : oracleNoStart r) :
    countStart (runPlanner st r).1.arena = countStart st.arena := by
  cases r with
  | error e => rfl
  | ok f =>
      simp only [runPlanner, allocFragment]
      rw [countStart_append, countStart_noStart_fragment st.arena f h]
      omega

theorem runPlanner_arena_extends (st : PlannerState) (r : Except PlanError FragmentSpec) :
    ∃ ext, (runPlanner st r).1.arena = st.arena ++ ext := by
  cases r with
  | error e => exact ⟨[], by simp [runPlanner]⟩
  | ok f => exact ⟨_, rfl⟩

theorem runPlanner_ok_shape (st : PlannerState) (r : Except PlanError FragmentSpec)
    (st' : PlannerState) (sp : SubPlan) (h : runPlanner st r = (st', .ok sp)) :
    ∃ f, r = .ok f
      ∧ st' = { st with arena := st.arena
            ++ f.nodes.map (fun n => { n with deps := n.deps.map (fun d => d + st.arena.length) }) }
      ∧ sp = { root := some (st.arena.length + f.rootIdx),
               tail := some (st.arena.length + f.tailIdx) } := by
  cases r with
  | error e => simp [runPlanner] at h
  | ok f =>
      simp only [runPlanner, allocFragment, Prod.mk.injEq, Except.ok.injEq] at h
      exact ⟨f, rfl, h.1.symm, h.2.symm⟩

theorem genPlanMatch_tailConnected (st : PlannerState) (m : MatchClauseContext) :
    (genPlanMatch st m).1.tailConnected = st.tailConnected := by
  simp [genPlanMatch, genPlan, runPlanner_tailConnected]

theorem genPlanMatch_countStart (st : PlannerState) (m : MatchClauseContext)
    (h : oracleNoStart m.planResult) :
    countStart (genPlanMatch st m).1.arena = countStart st.arena := by
  simp [genPlanMatch, genPlan, runPlanner_countStart _ _ h]

theorem genPlanWhere_tailConnected (st : PlannerState) (w : WhereClauseContext)
    (cols : List String) :
    (genPlanWhere st w cols).1.tailConnected = st.tailConnected := by
  simp [genPlanWhere, runPlanner_tailConnected]

theorem genPlanWhere_countStart (st : PlannerState) (w : WhereClauseContext)
    (cols : List String) (h : w.noStart) :
    countStart (genPlanWhere st w cols).1.arena = countStart st.arena := by
  simp [genPlanWhere, runPlanner_countStart _ _ (h cols)]

theorem genPlanBoundary_tailConnected (st : PlannerState) (b : BoundaryContext)
    (cols : List String) :
    (genPlanBoundary st b cols).1.tailConnected = st.tailConnected := by
  cases hk : b.kind <;> simp [genPlanBoundary, genPlan, hk, runPlanner_tailConnected]

theorem genPlanBoundary_countStart (st : PlannerState) (b : BoundaryContext)
    (cols : List String) (h : b.noStart) :
    countStart (genPlanBoundary st b cols).1.arena = countStart st.arena := by
  cases hk : b.kind <;> simp [genPlanBoundary, genPlan, hk, runPlanner_countStart _ _ (h cols)]

theorem addInput_tailConnected (st : PlannerState) (upper lower : SubPlan) (k : Bool) :
    (addInput st upper lower k).1.tailConnected = st.tailConnected := rfl

theorem addInput_countStart (st : PlannerState) (upper lower : SubPlan) (k : Bool) :
    countStart (addInput st upper lower k).1.arena = countStart st.arena := by
  simp [addInput, countStart_setInputVarAt, countStart_setDep0At]

theorem innerJoin_tailConnected (st : PlannerState) (l r : SubPlan) (keys : List String) :
    (innerJoin st l r keys).1.tailConnected = st.tailConnected := rfl

theorem innerJoin_countStart (st : PlannerState) (l r : SubPlan) (keys : List String) :
    countStart (innerJoin st l r keys).1.arena = countStart st.arena := by
  simp [innerJoin, countStart_append, countStart, List.countP_cons]

theorem leftJoin_tailConnected (st : PlannerState) (l r : SubPlan) (keys : List String) :
    (leftJoin st l r keys).1.tailConnected = st.tailConnected := rfl

theorem leftJoin_countStart (st : PlannerState) (l r : SubPlan) (keys : List String) :
    countStart (leftJoin st l r keys).1.arena = countStart st.arena := by
  simp [leftJoin, countStart_append, countStart, List.countP_cons]

theorem mkBiCartesianProduct_tailConnected (st : PlannerState) (l r : Option Nat) :
    (mkBiCartesianProduct st l r).1.tailConnected = st.tailConnected := rfl

theorem mkBiCartesianProduct_countStart (st : PlannerState) (l r : Option Nat) :
    countStart (mkBiCartesianProduct st l r).1.arena = countStart st.arena := by
  simp [mkBiCartesianProduct, countStart_append, countStart, List.countP_cons]

theorem mkStartNode_countStart (st : PlannerState) :
    countStart (mkStartNode st).1.arena = countStart st.arena + 1 := by
  simp [mkStartNode, countStart_append, countStart, List.countP_cons]

/-! ### Start-node accounting through the assembler -/

/-- The Start-node balance between two planner states: the number of Start
nodes grows by exactly the number of times the tailConnected flag flipped
from false to true. -/
def startBalance (st st' : PlannerState) : Prop :=
  countStart st'.arena + st.tailConnected.toNat
    = countStart st.arena + st'.tailConnected.toNat

theorem startBalance_refl (st : PlannerState) : startBalance st st := rfl

theorem startBalance_trans {st1 st2 st3 : PlannerState}
    (h1 : startBalance st1 st2) (h2 : startBalance st2 st3) : startBalance st1 st3 := by
  simp only [startBalance] at h1 h2 ⊢
  omega

theorem startBalance_of_preserved {st st' : PlannerState}
    (hc : countStart st'.arena = countStart st.arena)
    (ht : st'.tailConnected = st.tailConnected) : startBalance st st' := by
  simp [startBalance, hc, ht]

theorem countStart_append_nonstart (l : List PlanNode) (n : PlanNode)
    (h : (n.kind == PlanNodeKind.start) = false) :
    countStart (l ++ [n]) = countStart l := by
  simp [countStart, List.countP_append, List.countP_cons, h]

theorem rebindArgumentTail_tailConnected (st : PlannerState) (qp mp : SubPlan) :
    (rebindArgumentTail st qp mp).tailConnected = st.tailConnected := by
  unfold rebindArgumentTail; split <;> rfl

theorem rebindArgumentTail_countStart (st : PlannerState) (qp mp : SubPlan) :
    countStart (rebindArgumentTail st qp mp).arena = countStart st.arena := by
  unfold rebindArgumentTail; split <;> simp [countStart_setInputVarAt]

theorem rebindArgumentTail_anonCounter (st : PlannerState) (qp mp : SubPlan) :
    (rebindArgumentTail st qp mp).anonCounter = st.anonCounter := by
  unfold rebindArgumentTail; split <;> rfl

theorem rebindArgumentTail_length (st : PlannerState) (qp mp : SubPlan) :
    (rebindArgumentTail st qp mp).arena.length = st.arena.length := by
  unfold rebindArgumentTail; split <;> simp [setInputVarAt_length]

theorem filterOptionalMatch_preserve (st : PlannerState) (mp : SubPlan)
    (m : MatchClauseContext) (hm2 : ∀ w, m.whereCtx = some w → w.noStart) :
    countStart (filterOptionalMatch st mp m).1.arena = countStart st.arena ∧
    (filterOptionalMatch st mp m).1.tailConnected = st.tailConnected := by
  cases hw : m.whereCtx with
  | none => simp [filterOptionalMatch, hw]
  | some w =>
    cases hf : w.filter with
    | none => simp [filterOptionalMatch, hw, hf]
    | some f =>
      by_cases hall : ((filterAliasNames f).all fun a => hasAlias m.aliasesGenerated a) = true
      · rcases hwp : genPlanWhere st w (getNodeD st.arena mp.root).colNames with ⟨st3, r2⟩
        have hst3c : countStart st3.arena = countStart st.arena := by
          have := genPlanWhere_countStart st w (getNodeD st.arena mp.root).colNames (hm2 w hw)
          rw [hwp] at this; exact this
        have hst3t : st3.tailConnected = st.tailConnected := by
          have := genPlanWhere_tailConnected st w (getNodeD st.arena mp.root).colNames
          rw [hwp] at this; exact this
        cases r2 with
        | error e => simp [filterOptionalMatch, hw, hf, hall, hwp, hst3c, hst3t]
        | ok wherePlan =>
            simp [filterOptionalMatch, hw, hf, hall, hwp, addInput,
              countStart_setInputVarAt, countStart_setDep0At, hst3c, hst3t]
      · simp [filterOptionalMatch, hw, hf, hall]

theorem connectMatchPlan_preserve (st : PlannerState) (qp : SubPlan)
    (m : MatchClauseContext) (hm : m.noStart) :
    countStart (connectMatchPlan st qp m).1.arena = countStart st.arena ∧
    (connectMatchPlan st qp m).1.tailConnected = st.tailConnected := by
  obtain ⟨hm1, hm2⟩ := hm
  rcases hg : genPlanMatch st m with ⟨st1, r⟩
  have hst1c : countStart st1.arena = countStart st.arena := by
    have := genPlanMatch_countStart st m hm1; rw [hg] at this; exact this
  have hst1t : st1.tailConnected = st.tailConnected := by
    have := genPlanMatch_tailConnected st m; rw [hg] at this; exact this
  cases r with
  | error e => simp [connectMatchPlan, hg, hst1c, hst1t]
  | ok matchPlan =>
    cases hq : qp.root with
    | none => simp [connectMatchPlan, hg, hq, hst1c, hst1t]
    | some rt =>
      cases hci : computeIntersectedAliases m.aliasesGenerated m.aliasesAvailable with
      | error e => simp [connectMatchPlan, hg, hq, hci, hst1c, hst1t]
      | ok intersected =>
        cases intersected with
        | nil =>
            simp only [connectMatchPlan, hg, hq, hci, mkBiCartesianProduct]
            rw [countStart_append_nonstart _ _ (by rfl)]
            exact ⟨hst1c, hst1t⟩
        | cons k ks =>
          cases ho : m.isOptional with
          | false =>
              simp only [connectMatchPlan, hg, hq, hci, ho, if_false, Bool.false_eq_true,
                innerJoin]
              rw [countStart_append_nonstart _ _ (by rfl)]
              rw [rebindArgumentTail_countStart, rebindArgumentTail_tailConnected]
              exact ⟨hst1c, hst1t⟩
          | true =>
              rcases hfm : filterOptionalMatch (rebindArgumentTail st1 qp matchPlan)
                  matchPlan m with ⟨st3, r3⟩
              have hpres := filterOptionalMatch_preserve
                (rebindArgumentTail st1 qp matchPlan) matchPlan m hm2
              rw [hfm] at hpres
              obtain ⟨hc3, ht3⟩ := hpres
              rw [rebindArgumentTail_countStart] at hc3
              rw [rebindArgumentTail_tailConnected] at ht3
              cases r3 with
              | error e =>
                  simp only [connectMatchPlan, hg, hq, hci, ho, if_true, hfm]
                  exact ⟨by rw [hc3, hst1c], by rw [ht3, hst1t]⟩
              | ok filtered =>
                  simp only [connectMatchPlan, hg, hq, hci, ho, if_true, hfm, leftJoin]
                  rw [countStart_append_nonstart _ _ (by rfl)]
                  exact ⟨by rw [hc3, hst1c], by rw [ht3, hst1t]⟩

theorem foldOneMatch_preserve (st : PlannerState) (qp : SubPlan)
    (m : MatchClauseContext) (hm : m.noStart) :
    countStart (foldOneMatch st qp m).1.arena = countStart st.arena ∧
    (foldOneMatch st qp m).1.tailConnected = st.tailConnected := by
  rcases hc : connectMatchPlan st qp m with ⟨st1, qp1, s⟩
  have hpres := connectMatchPlan_preserve st qp m hm
  rw [hc] at hpres
  obtain ⟨hc1, ht1⟩ := hpres
  replace hc1 : countStart st1.arena = countStart st.arena := hc1
  replace ht1 : st1.tailConnected = st.tailConnected := ht1
  cases s with
  | some e => simp [foldOneMatch, hc, hc1, ht1]
  | none =>
    cases hw : m.whereCtx with
    | none => simp [foldOneMatch, hc, hw, hc1, ht1]
    | some w =>
      cases ho : m.isOptional with
      | true => simp [foldOneMatch, hc, hw, ho, hc1, ht1]
      | false =>
        rcases hwp : genPlanWhere st1 w (getNodeD st1.arena qp1.root).colNames with ⟨st2, r2⟩
        have hst2c : countStart st2.arena = countStart st1.arena := by
          have := genPlanWhere_countStart st1 w (getNodeD st1.arena qp1.root).colNames
            (hm.2 w hw)
          rw [hwp] at this; exact this
        have hst2t : st2.tailConnected = st1.tailConnected := by
          have := genPlanWhere_tailConnected st1 w (getNodeD st1.arena qp1.root).colNames
          rw [hwp] at this; exact this
        cases r2 with
        | error e => simp [foldOneMatch, hc, hw, ho, hwp, hst2c, hst2t, hc1, ht1]
        | ok wherePlan =>
            simp [foldOneMatch, hc, hw, ho, hwp, addInput, countStart_setInputVarAt,
              countStart_setDep0At, hst2c, hst2t, hc1, ht1]

theorem foldMatchClauses_preserve (ms : List MatchClauseContext) (st : PlannerState)
    (qp : SubPlan) (hm : ∀ m ∈ ms, m.noStart) :
    countStart (foldMatchClauses st qp ms).1.arena = countStart st.arena ∧
    (foldMatchClauses st qp ms).1.tailConnected = st.tailConnected := by
  induction ms generalizing st qp with
  | nil => exact ⟨rfl, rfl⟩
  | cons m rest ih =>
    rcases hf : foldOneMatch st qp m with ⟨st1, qp1, s⟩
    have hpres := foldOneMatch_preserve st qp m (hm m (by simp))
    rw [hf] at hpres
    obtain ⟨hc1, ht1⟩ := hpres
    replace hc1 : countStart st1.arena = countStart st.arena := hc1
    replace ht1 : st1.tailConnected = st.tailConnected := ht1
    cases s with
    | some e => simp [foldMatchClauses, hf, hc1, ht1]
    | none =>
        have hrest := ih st1 qp1 (fun x hx => hm x (by simp [hx]))
        simp only [foldMatchClauses, hf]
        exact ⟨hrest.1.trans hc1, hrest.2.trans ht1⟩

theorem connectBoundary_preserve (st : PlannerState) (qp : SubPlan)
    (b : BoundaryContext) (hb : b.noStart) :
    countStart (connectBoundary st qp b).1.arena = countStart st.arena ∧
    (connectBoundary st qp b).1.tailConnected = st.tailConnected := by
  cases hq : qp.root with
  | none =>
    rcases hg : genPlanBoundary st b b.inputColNames with ⟨st1, r⟩
    have hst1c : countStart st1.arena = countStart st.arena := by
      have := genPlanBoundary_countStart st b b.inputColNames hb
      rw [hg] at this; exact this
    have hst1t : st1.tailConnected = st.tailConnected := by
      have := genPlanBoundary_tailConnected st b b.inputColNames
      rw [hg] at this; exact this
    cases r with
    | error e =>
        simp only [connectBoundary, hq, hg]
        exact ⟨hst1c, hst1t⟩
    | ok boundaryPlan =>
        simp only [connectBoundary, hq, hg]
        exact ⟨hst1c, hst1t⟩
  | some rt =>
    rcases hg : genPlanBoundary st b (st.arena.getD rt defaultPlanNode).colNames with ⟨st1, r⟩
    have hst1c : countStart st1.arena = countStart st.arena := by
      have := genPlanBoundary_countStart st b (st.arena.getD rt defaultPlanNode).colNames hb
      rw [hg] at this; exact this
    have hst1t : st1.tailConnected = st.tailConnected := by
      have := genPlanBoundary_tailConnected st b (st.arena.getD rt defaultPlanNode).colNames
      rw [hg] at this; exact this
    cases r with
    | error e =>
        simp only [connectBoundary, hq, hg]
        exact ⟨hst1c, hst1t⟩
    | ok boundaryPlan =>
        simp only [connectBoundary, hq, hg, addInput]
        refine ⟨?_, ?_⟩
        · simp only [countStart_setInputVarAt, countStart_setDep0At]
          exact hst1c
        · exact hst1t

theorem anchorTail_balance (st : PlannerState) (qp : SubPlan) :
    startBalance st (anchorTail st qp).1 := by
  simp only [startBalance, anchorTail]
  split
  · simp only [nextAnonVar]
    split
    · next h =>
        replace h : st.tailConnected = true := h
        simp [h, countStart_setInputVarAt]
    · next h =>
        replace h : ¬ st.tailConnected = true := h
        simp only [mkStartNode, setInputVarAt_length]
        rw [countStart_setDep0At, countStart_append, countStart_setInputVarAt]
        simp [h, countStart, List.countP_cons]
  · rfl

theorem genQueryPartPlan_balance (st : PlannerState) (qp : SubPlan) (part : QueryPart)
    (hp : part.noStart) :
    startBalance st (genQueryPartPlan st qp part).1 := by
  rcases hf : foldMatchClauses st qp part.matchs with ⟨st1, qp1, s⟩
  have hpres := foldMatchClauses_preserve part.matchs st qp hp.1
  rw [hf] at hpres
  have hb1 : startBalance st st1 := startBalance_of_preserved hpres.1 hpres.2
  cases s with
  | some e => simpa [genQueryPartPlan, hf] using hb1
  | none =>
    rcases hcb : connectBoundary st1 qp1 part.boundary with ⟨st2, qp2, s2⟩
    have hpres2 := connectBoundary_preserve st1 qp1 part.boundary hp.2
    rw [hcb] at hpres2
    have hb2 : startBalance st1 st2 := startBalance_of_preserved hpres2.1 hpres2.2
    cases s2 with
    | some e => simpa [genQueryPartPlan, hf, hcb] using startBalance_trans hb1 hb2
    | none =>
        have hb3 : startBalance st2 (anchorTail st2 qp2).1 := anchorTail_balance st2 qp2
        simpa [genQueryPartPlan, hf, hcb] using
          startBalance_trans (startBalance_trans hb1 hb2) hb3

theorem transformLoop_balance (parts : List QueryPart) (st : PlannerState) (qp : SubPlan)
    (hp : ∀ p ∈ parts, p.noStart) :
    startBalance st (transformLoop st qp parts).1 := by
  induction parts generalizing st qp with
  | nil => exact startBalance_refl st
  | cons p rest ih =>
    rcases hg : genQueryPartPlan st qp p with ⟨st1, qp1, s⟩
    have hb1 : startBalance st st1 := by
      have := genQueryPartPlan_balance st qp p (hp p (by simp))
      rw [hg] at this; exact this
    cases s with
    | some e => simpa [transformLoop, hg] using hb1
    | none =>
        have hrest := ih st1 qp1 (fun x hx => hp x (by simp [hx]))
        simpa [transformLoop, hg] using startBalance_trans hb1 hrest

theorem transform_balance (st : PlannerState) (k : SentenceKind) (parts : List QueryPart)
    (hp : ∀ p ∈ parts, p.noStart) :
    startBalance st (transform st k parts).1 := by
  cases k with
  | kMatch => simpa [transform] using transformLoop_balance parts st _ hp
  | kOther => exact startBalance_refl st

/-! ### Branch characterizations of connectMatchPlan -/

theorem getD_append_self (l : List PlanNode) (n d : PlanNode) :
    (l ++ [n]).getD l.length d = n := by
  rw [List.getD_append_right l [n] d l.length (le_refl _)]
  simp

theorem innerJoin_root_node (st : PlannerState) (l r : SubPlan) (keys : List String) :
    getNodeD (innerJoin st l r keys).1.arena (innerJoin st l r keys).2.root
      = { kind := .biInnerJoin, deps := [l.root.getD 0, r.root.getD 0],
          inputVar := "", outputVar := "__node_" ++ toString st.arena.length,
          colNames := (getNodeD st.arena l.root).colNames
            ++ (getNodeD st.arena r.root).colNames,
          joinKeys := keys, singleInput := false } := by
  simp [innerJoin, getNodeD, getD_append_self]

theorem leftJoin_root_node (st : PlannerState) (l r : SubPlan) (keys : List String) :
    getNodeD (leftJoin st l r keys).1.arena (leftJoin st l r keys).2.root
      = { kind := .biLeftJoin, deps := [l.root.getD 0, r.root.getD 0],
          inputVar := "", outputVar := "__node_" ++ toString st.arena.length,
          colNames := (getNodeD st.arena l.root).colNames
            ++ (getNodeD st.arena r.root).colNames,
          joinKeys := keys, singleInput := false } := by
  simp [leftJoin, getNodeD, getD_append_self]

theorem mkBiCartesianProduct_node (st : PlannerState) (l r : Option Nat) :
    getNodeD (mkBiCartesianProduct st l r).1.arena (some (mkBiCartesianProduct st l r).2)
      = { kind := .biCartesianProduct, deps := [l.getD 0, r.getD 0],
          inputVar := "", outputVar := "__node_" ++ toString st.arena.length,
          colNames := (getNodeD st.arena l).colNames ++ (getNodeD st.arena r).colNames,
          joinKeys := [], singleInput := false } := by
  simp [mkBiCartesianProduct, getNodeD, getD_append_self]

theorem connectMatchPlan_error_eq (st st1 : PlannerState) (qp : SubPlan)
    (m : MatchClauseContext) (e : PlanError)
    (hgen : genPlanMatch st m = (st1, .error e)) :
    connectMatchPlan st qp m = (st1, qp, some e) := by
  simp [connectMatchPlan, hgen]

theorem connectMatchPlan_first_eq (st st1 : PlannerState) (qp mp : SubPlan)
    (m : MatchClauseContext)
    (hroot : qp.root = none)
    (hgen : genPlanMatch st m = (st1, .ok mp)) :
    connectMatchPlan st qp m = (st1, mp, none) := by
  simp [connectMatchPlan, hgen, hroot]

theorem connectMatchPlan_intersect_error_eq (st st1 : PlannerState) (qp mp : SubPlan)
    (m : MatchClauseContext) (r : Nat) (e : PlanError)
    (hroot : qp.root = some r)
    (hgen : genPlanMatch st m = (st1, .ok mp))
    (hint : computeIntersectedAliases m.aliasesGenerated m.aliasesAvailable = .error e) :
    connectMatchPlan st qp m = (st1, qp, some e) := by
  simp [connectMatchPlan, hgen, hroot, hint]

theorem connectMatchPlan_cartesian_eq (st st1 : PlannerState) (qp mp : SubPlan)
    (m : MatchClauseContext) (r : Nat)
    (hroot : qp.root = some r)
    (hgen : genPlanMatch st m = (st1, .ok mp))
    (hint : computeIntersectedAliases m.aliasesGenerated m.aliasesAvailable = .ok []) :
    connectMatchPlan st qp m
      = ((mkBiCartesianProduct st1 (some r) mp.root).1,
         { root := some (mkBiCartesianProduct st1 (some r) mp.root).2, tail := qp.tail },
         none) := by
  simp [connectMatchPlan, hgen, hroot, hint]

theorem connectMatchPlan_innerJoin_eq (st st1 : PlannerState) (qp mp : SubPlan)
    (m : MatchClauseContext) (r : Nat) (k : String) (ks : List String)
    (hroot : qp.root = some r)
    (hgen : genPlanMatch st m = (st1, .ok mp))
    (hint : computeIntersectedAliases m.aliasesGenerated m.aliasesAvailable = .ok (k :: ks))
    (hopt : m.isOptional = false) :
    connectMatchPlan st qp m
      = ((innerJoin (rebindArgumentTail st1 qp mp) qp mp (k :: ks)).1,
         (innerJoin (rebindArgumentTail st1 qp mp) qp mp (k :: ks)).2, none) := by
  simp [connectMatchPlan, hgen, hroot, hint, hopt]

theorem connectMatchPlan_leftJoin_err_eq (st st1 st3 : PlannerState) (qp mp : SubPlan)
    (m : MatchClauseContext) (r : Nat) (k : String) (ks : List String) (e : PlanError)
    (hroot : qp.root = some r)
    (hgen : genPlanMatch st m = (st1, .ok mp))
    (hint : computeIntersectedAliases m.aliasesGenerated m.aliasesAvailable = .ok (k :: ks))
    (hopt : m.isOptional = true)
    (hfm : filterOptionalMatch (rebindArgumentTail st1 qp mp) mp m = (st3, .error e)) :
    connectMatchPlan st qp m = (st3, qp, some e) := by
  simp [connectMatchPlan, hgen, hroot, hint, hopt, hfm]

theorem connectMatchPlan_leftJoin_ok_eq (st st1 st3 : PlannerState) (qp mp filtered : SubPlan)
    (m : MatchClauseContext) (r : Nat) (k : String) (ks : List String)
    (hroot : qp.root = some r)
    (hgen : genPlanMatch st m = (st1, .ok mp))
    (hint : computeIntersectedAliases m.aliasesGenerated m.aliasesAvailable = .ok (k :: ks))
    (hopt : m.isOptional = true)
    (hfm : filterOptionalMatch (rebindArgumentTail st1 qp mp) mp m = (st3, .ok filtered)) :
    connectMatchPlan st qp m
      = ((leftJoin st3 qp filtered (k :: ks)).1,
         (leftJoin st3 qp filtered (k :: ks)).2, none) := by
  simp [connectMatchPlan, hgen, hroot, hint, hopt, hfm]

/-! ### The claims -/

/-- Claim C1: for every call to connectMatchPlan with a non-empty
accumulator, the join kind is selected by the shared-alias set: a non-empty
intersection on an optional clause combines the accumulator and the (possibly
filtered) match fragment via leftJoin on those aliases, a non-empty
intersection on a non-optional clause combines them via innerJoin on those
aliases, and an empty intersection makes the result's root a cartesian-product
combination of the two fragments' roots. -/
theorem c1_join_kind_selection
    (st st1 : PlannerState) (qp mp : SubPlan) (m : MatchClauseContext)
    (r : Nat) (keys : List String)
    (hroot : qp.root = some r)
    (hgen : genPlanMatch st m = (st1, .ok mp))
    (hint : computeIntersectedAliases m.aliasesGenerated m.aliasesAvailable = .ok keys) :
    (keys ≠ [] → m.isOptional = true → (connectMatchPlan st qp m).2.2 = none →
      (getNodeD (connectMatchPlan st qp m).1.arena
          (connectMatchPlan st qp m).2.1.root).kind = .biLeftJoin
        ∧ (getNodeD (connectMatchPlan st qp m).1.arena
            (connectMatchPlan st qp m).2.1.root).joinKeys = keys
        ∧ (getNodeD (connectMatchPlan st qp m).1.arena
            (connectMatchPlan st qp m).2.1.root).deps.head? = some r)
  ∧ (keys ≠ [] → m.isOptional = false →
      (connectMatchPlan st qp m).2.2 = none
        ∧ (getNodeD (connectMatchPlan st qp m).1.arena
            (connectMatchPlan st qp m).2.1.root).kind = .biInnerJoin
        ∧ (getNodeD (connectMatchPlan st qp m).1.arena
            (connectMatchPlan st qp m).2.1.root).joinKeys = keys
        ∧ (getNodeD (connectMatchPlan st qp m).1.arena
            (connectMatchPlan st qp m).2.1.root).deps.head? = some r)
  ∧ (keys = [] →
      (connectMatchPlan st qp m).2.2 = none
        ∧ (getNodeD (connectMatchPlan st qp m).1.arena
            (connectMatchPlan st qp m).2.1.root).kind = .biCartesianProduct
        ∧ (getNodeD (connectMatchPlan st qp m).1.arena
            (connectMatchPlan st qp m).2.1.root).deps = [r, mp.root.getD 0]) := by
  refine ⟨?_, ?_, ?_⟩
  · intro hne hopt hok
    cases keys with
    | nil => exact absurd rfl hne
    | cons k ks =>
      rcases hfm : filterOptionalMatch (rebindArgumentTail st1 qp mp) mp m with ⟨st3, r3⟩
      cases r3 with
      | error e =>
          rw [connectMatchPlan_leftJoin_err_eq st st1 st3 qp mp m r k ks e
            hroot hgen hint hopt hfm] at hok
          simp at hok
      | ok filtered =>
          rw [connectMatchPlan_leftJoin_ok_eq st st1 st3 qp mp filtered m r k ks
            hroot hgen hint hopt hfm]
          dsimp only
          rw [leftJoin_root_node]
          exact ⟨rfl, rfl, by simp [hroot]⟩
  · intro hne hopt
    cases keys with
    | nil => exact absurd rfl hne
    | cons k ks =>
      rw [connectMatchPlan_innerJoin_eq st st1 qp mp m r k ks hroot hgen hint hopt]
      dsimp only
      rw [innerJoin_root_node]
      exact ⟨rfl, rfl, rfl, by simp [hroot]⟩
  · intro hkeys
    subst hkeys
    rw [connectMatchPlan_cartesian_eq st st1 qp mp m r hroot hgen hint]
    dsimp only
    rw [mkBiCartesianProduct_node]
    exact ⟨rfl, rfl, by simp⟩

/-- Claim C3 (amended): for every optional matching clause folded into a
non-empty accumulator whose shared-alias set with the earlier clauses is
non-empty, if its WHERE filter references a variable (variable-property or
label) that is not among the aliases generated by the clause itself,
connectMatchPlan fails with the unsupported-optional-filter-scope semantic
error and leaves the accumulator unchanged, so assembly returns no plan.
(The unamended claim is false: with an empty shared-alias set the scope check
never runs and the clause is folded via cartesian product — see the
counterexample below.) -/
theorem c3_optional_filter_scope
    (st st1 : PlannerState) (qp mp : SubPlan) (m : MatchClauseContext)
    (r : Nat) (k : String) (ks : List String) (w : WhereClauseContext) (f : Expr)
    (hroot : qp.root = some r)
    (hgen : genPlanMatch st m = (st1, .ok mp))
    (hint : computeIntersectedAliases m.aliasesGenerated m.aliasesAvailable = .ok (k :: ks))
    (hopt : m.isOptional = true)
    (hw : m.whereCtx = some w)
    (hf : w.filter = some f)
    (hbad : ((filterAliasNames f).all fun a => hasAlias m.aliasesGenerated a) = false) :
    (connectMatchPlan st qp m).2
      = (qp, some (.semanticError optionalWhereScopeMsg)) := by
  have hfm : filterOptionalMatch (rebindArgumentTail st1 qp mp) mp m
      = (rebindArgumentTail st1 qp mp, .error (.semanticError optionalWhereScopeMsg)) := by
    simp [filterOptionalMatch, hw, hf, hbad]
  rw [connectMatchPlan_leftJoin_err_eq st st1 (rebindArgumentTail st1 qp mp) qp mp m r k ks
    (.semanticError optionalWhereScopeMsg) hroot hgen hint hopt hfm]

/-- Claim C9: whenever connectMatchPlan returns an error, the accumulator
SubPlan passed in by reference is returned exactly as it was: its root and
tail are unchanged (error atomicity of the fold step). -/
theorem c9_error_atomicity
    (st : PlannerState) (qp : SubPlan) (m : MatchClauseContext) :
    ∀ st' qp' e, connectMatchPlan st qp m = (st', qp', some e) → qp' = qp := by
  intro st' qp' e h
  rcases hg : genPlanMatch st m with ⟨st1, r⟩
  cases r with
  | error e2 =>
      rw [connectMatchPlan_error_eq st st1 qp m e2 hg] at h
      simp only [Prod.mk.injEq] at h
      exact h.2.1.symm
  | ok mp =>
    cases hq : qp.root with
    | none =>
        rw [connectMatchPlan_first_eq st st1 qp mp m hq hg] at h
        simp at h
    | some rt =>
      cases hci : computeIntersectedAliases m.aliasesGenerated m.aliasesAvailable with
      | error e2 =>
          rw [connectMatchPlan_intersect_error_eq st st1 qp mp m rt e2 hq hg hci] at h
          simp only [Prod.mk.injEq] at h
          exact h.2.1.symm
      | ok intersected =>
        cases intersected with
        | nil =>
            rw [connectMatchPlan_cartesian_eq st st1 qp mp m rt hq hg hci] at h
            simp at h
        | cons k ks =>
          cases ho : m.isOptional with
          | false =>
              rw [connectMatchPlan_innerJoin_eq st st1 qp mp m rt k ks hq hg hci ho] at h
              simp at h
          | true =>
              rcases hfm : filterOptionalMatch (rebindArgumentTail st1 qp mp) mp m
                with ⟨st3, r3⟩
              cases r3 with
              | error e2 =>
                  rw [connectMatchPlan_leftJoin_err_eq st st1 st3 qp mp m rt k ks e2
                    hq hg hci ho hfm] at h
                  simp only [Prod.mk.injEq] at h
                  exact h.2.1.symm
              | ok filtered =>
                  rw [connectMatchPlan_leftJoin_ok_eq st st1 st3 qp mp filtered m rt k ks
                    hq hg hci ho hfm] at h
                  simp at h

/-- Claim C10: for every fold of a matching clause into a non-empty
accumulator with an empty shared-alias set, connectMatchPlan replaces only
the accumulator's root with a BiCartesianProduct of the old root and the
match fragment's root, leaves the tail unchanged, succeeds, and allocates
exactly one node — so on this path an optional clause's WHERE sub-clause is
neither scope-validated nor planned nor spliced into the plan. -/
theorem c10_cartesian_frame
    (st st1 : PlannerState) (qp mp : SubPlan) (m : MatchClauseContext) (r : Nat)
    (hroot : qp.root = some r)
    (hgen : genPlanMatch st m = (st1, .ok mp))
    (hint : computeIntersectedAliases m.aliasesGenerated m.aliasesAvailable = .ok []) :
    (connectMatchPlan st qp m).2.1.tail = qp.tail
      ∧ (connectMatchPlan st qp m).2.1.root = some st1.arena.length
      ∧ (getNodeD (connectMatchPlan st qp m).1.arena
          (connectMatchPlan st qp m).2.1.root).kind = .biCartesianProduct
      ∧ (connectMatchPlan st qp m).2.2 = none
      ∧ (connectMatchPlan st qp m).1.arena.length = st1.arena.length + 1
      ∧ (connectMatchPlan st qp m).1.anonCounter = st1.anonCounter := by
  rw [connectMatchPlan_cartesian_eq st st1 qp mp m r hroot hgen hint]
  refine ⟨rfl, rfl, ?_, rfl, ?_, rfl⟩
  · dsimp only
    rw [mkBiCartesianProduct_node]
  · simp [mkBiCartesianProduct]

theorem computeIntersectedAliases_append_error
    (avail : List (String × AliasType)) (pre : List (String × AliasType))
    (tl : List (String × AliasType)) (ks : List String) (e : PlanError)
    (hpre : computeIntersectedAliases pre avail = .ok ks)
    (hhd : computeIntersectedAliases tl avail = .error e) :
    computeIntersectedAliases (pre ++ tl) avail = .error e := by
  induction pre generalizing ks with
  | nil => simpa using hhd
  | cons p pre ih =>
    rcases p with ⟨b, s⟩
    rw [List.cons_append]
    cases hl : lookupAliasType avail b with
    | none =>
        simp only [computeIntersectedAliases, hl] at hpre ⊢
        exact ih ks hpre
    | some s2 =>
        simp only [computeIntersectedAliases, hl] at hpre ⊢
        by_cases hne : s2 ≠ s
        · rw [if_pos hne] at hpre
          cases hpre
        · rw [if_neg hne] at hpre ⊢
          by_cases hel : s = .edgeList
          · rw [if_pos hel] at hpre
            cases hpre
          · rw [if_neg hel] at hpre ⊢
            cases hrec : computeIntersectedAliases pre avail with
            | error e2 => rw [hrec] at hpre; cases hpre
            | ok ks2 => rw [ih ks2 hrec]

/-- Claim C4: for every matching clause folded into a non-empty accumulator
that generates an alias also present among the available aliases with a
different AliasKind (and no alias earlier in the generated list already
aborts the intersection loop), connectMatchPlan fails with the
binding-type-conflict semantic error naming both kinds and leaves the
accumulator unchanged, so assembly never returns a plan for that query. -/
theorem c4_binding_type_conflict
    (st st1 : PlannerState) (qp mp : SubPlan) (m : MatchClauseContext) (r : Nat)
    (pre rest : List (String × AliasType)) (a : String) (t t2 : AliasType)
    (ks : List String)
    (hroot : qp.root = some r)
    (hgen : genPlanMatch st m = (st1, .ok mp))
    (hsplit : m.aliasesGenerated = pre ++ (a, t) :: rest)
    (hpre : computeIntersectedAliases pre m.aliasesAvailable = .ok ks)
    (hl : lookupAliasType m.aliasesAvailable a = some t2)
    (hne : t2 ≠ t) :
    connectMatchPlan st qp m
      = (st1, qp, some (.semanticError (a ++ " binding to different type: "
          ++ aliasTypeName t ++ " vs " ++ aliasTypeName t2))) := by
  have hhd : computeIntersectedAliases ((a, t) :: rest) m.aliasesAvailable
      = .error (.semanticError (a ++ " binding to different type: "
          ++ aliasTypeName t ++ " vs " ++ aliasTypeName t2)) := by
    simp [computeIntersectedAliases, hl, hne]
  have hint := computeIntersectedAliases_append_error m.aliasesAvailable pre
    ((a, t) :: rest) ks _ hpre hhd
  rw [← hsplit] at hint
  exact connectMatchPlan_intersect_error_eq st st1 qp mp m r _ hroot hgen hint

/-- Claim C5: for every matching clause folded into a non-empty accumulator
that generates an alias also present among the available aliases with the
identical AliasKind EdgeList (and no alias earlier in the generated list
already aborts the intersection loop), connectMatchPlan fails with the
invalid-join-key semantic error: an EdgeList-typed variable may never be used
as a join key. -/
theorem c5_edgelist_join_key
    (st st1 : PlannerState) (qp mp : SubPlan) (m : MatchClauseContext) (r : Nat)
    (pre rest : List (String × AliasType)) (a : String) (ks : List String)
    (hroot : qp.root = some r)
    (hgen : genPlanMatch st m = (st1, .ok mp))
    (hsplit : m.aliasesGenerated = pre ++ (a, .edgeList) :: rest)
    (hpre : computeIntersectedAliases pre m.aliasesAvailable = .ok ks)
    (hl : lookupAliasType m.aliasesAvailable a = some .edgeList) :
    connectMatchPlan st qp m
      = (st1, qp, some (.semanticError
          (a ++ " defined with type EdgeList, which cannot be joined on"))) := by
  have hhd : computeIntersectedAliases ((a, AliasType.edgeList) :: rest) m.aliasesAvailable
      = .error (.semanticError (a ++ " defined with type EdgeList, which cannot be joined on")) := by
    simp [computeIntersectedAliases, hl]
  have hint := computeIntersectedAliases_append_error m.aliasesAvailable pre
    ((a, AliasType.edgeList) :: rest) ks _ hpre hhd
  rw [← hsplit] at hint
  exact connectMatchPlan_intersect_error_eq st st1 qp mp m r _ hroot hgen hint

/-- Claim C6: for every query part, after folding its matching clauses, a
non-empty accumulator makes the boundary clause's input column names the
accumulator root's output columns and chains the boundary fragment beneath
the accumulator via addInput with keepLowerTail = false, while an empty
accumulator simply becomes the boundary fragment; genQueryPartPlan routes the
folded accumulator through exactly this boundary step before anchoring. -/
theorem c6_boundary_connection (st : PlannerState) (qp : SubPlan) (b : BoundaryContext) :
    (∀ r st1 bp, qp.root = some r →
        genPlanBoundary st b (st.arena.getD r defaultPlanNode).colNames = (st1, .ok bp) →
        connectBoundary st qp b
          = ((addInput st1 bp qp false).1, (addInput st1 bp qp false).2, none))
  ∧ (∀ st1 bp, qp.root = none →
        genPlanBoundary st b b.inputColNames = (st1, .ok bp) →
        connectBoundary st qp b = (st1, bp, none))
  ∧ (∀ part : QueryPart, ∀ stf st2 : PlannerState, ∀ qpf qp2 : SubPlan,
        foldMatchClauses st qp part.matchs = (stf, qpf, none) →
        connectBoundary stf qpf part.boundary = (st2, qp2, none) →
        genQueryPartPlan st qp part
          = ((anchorTail st2 qp2).1, (anchorTail st2 qp2).2, none)) := by
  refine ⟨?_, ?_, ?_⟩
  · intro r st1 bp hq hg
    rcases ha : addInput st1 bp qp false with ⟨st2, qp2⟩
    simp only [connectBoundary, hq, hg, ha]
  · intro st1 bp hq hg
    simp only [connectBoundary, hq, hg]
  · intro part stf st2 qpf qp2 hf hcb
    rcases hat : anchorTail st2 qp2 with ⟨st3, qp3⟩
    simp only [genQueryPartPlan, hf, hcb, hat]

/-- Claim C7: for every non-optional matching clause that carries a WHERE
sub-clause, genQueryPartPlan splices the filter immediately after folding the
clause: the filter sub-planner is invoked with the then-current accumulator
root's output columns as its input schema and the resulting filter fragment
is chained beneath the accumulator via addInput with keepLowerTail = true;
an optional clause is not filtered again at this point. -/
theorem c7_filter_splice (st st1 st2 : PlannerState) (qp qp1 wp : SubPlan)
    (m : MatchClauseContext) (w : WhereClauseContext)
    (hconn : connectMatchPlan st qp m = (st1, qp1, none))
    (hw : m.whereCtx = some w) :
    (m.isOptional = false →
      genPlanWhere st1 w (getNodeD st1.arena qp1.root).colNames = (st2, .ok wp) →
      foldOneMatch st qp m
        = ((addInput st2 wp qp1 true).1, (addInput st2 wp qp1 true).2, none))
  ∧ (m.isOptional = true → foldOneMatch st qp m = connectMatchPlan st qp m) := by
  constructor
  · intro ho hwp
    rcases ha : addInput st2 wp qp1 true with ⟨st3, qp3⟩
    simp [foldOneMatch, hconn, hw, ho, hwp, ha]
  · intro ho
    simp [foldOneMatch, hconn, hw, ho]

/-! ### Low-index frame lemmas for the argument-rebinding claim -/

theorem runPlanner_getD_low (st : PlannerState) (r : Except PlanError FragmentSpec)
    (i : Nat) (hi : i < st.arena.length) :
    (runPlanner st r).1.arena.getD i defaultPlanNode = st.arena.getD i defaultPlanNode := by
  obtain ⟨ext, hext⟩ := runPlanner_arena_extends st r
  rw [hext]
  exact List.getD_append _ _ _ _ hi

theorem runPlanner_length_ge (st : PlannerState) (r : Except PlanError FragmentSpec) :
    st.arena.length ≤ (runPlanner st r).1.arena.length := by
  obtain ⟨ext, hext⟩ := runPlanner_arena_extends st r
  rw [hext]
  simp

theorem runPlanner_ok_tail_ge (st st' : PlannerState) (r : Except PlanError FragmentSpec)
    (sp : SubPlan) (h : runPlanner st r = (st', .ok sp)) :
    ∃ u, sp.tail = some u ∧ st.arena.length ≤ u := by
  obtain ⟨f, -, -, hsp⟩ := runPlanner_ok_shape st r st' sp h
  exact ⟨st.arena.length + f.tailIdx, by rw [hsp], Nat.le_add_right _ _⟩

theorem setInputVarAt_getD_ne (arena : List PlanNode) (j i : Nat) (v : String)
    (h : i ≠ j) :
    (setInputVarAt arena (some j) v).getD i defaultPlanNode
      = arena.getD i defaultPlanNode := by
  simp only [setInputVarAt]
  exact getD_set_ne _ _ _ _ _ h

theorem setDep0At_getD_ne (arena : List PlanNode) (j i : Nat) (d : Nat)
    (h : i ≠ j) :
    (setDep0At arena (some j) d).getD i defaultPlanNode
      = arena.getD i defaultPlanNode := by
  simp only [setDep0At]
  exact getD_set_ne _ _ _ _ _ h

theorem addInput_getD_low (st : PlannerState) (upper lower : SubPlan) (k : Bool)
    (i : Nat) (hup : ∀ u, upper.tail = some u → i ≠ u) :
    (addInput st upper lower k).1.arena.getD i defaultPlanNode
      = st.arena.getD i defaultPlanNode := by
  cases hu : upper.tail with
  | none => simp [addInput, hu, setInputVarAt, setDep0At]
  | some u =>
      have hne : i ≠ u := hup u hu
      simp only [addInput, hu]
      rw [setInputVarAt_getD_ne _ _ _ _ hne, setDep0At_getD_ne _ _ _ _ hne]

theorem filterOptionalMatch_getD_low (st : PlannerState) (mp : SubPlan)
    (m : MatchClauseContext) (i : Nat) (hi : i < st.arena.length) :
    (filterOptionalMatch st mp m).1.arena.getD i defaultPlanNode
      = st.arena.getD i defaultPlanNode := by
  cases hw : m.whereCtx with
  | none => simp [filterOptionalMatch, hw]
  | some w =>
    cases hf : w.filter with
    | none => simp [filterOptionalMatch, hw, hf]
    | some f =>
      by_cases hall : ((filterAliasNames f).all fun a => hasAlias m.aliasesGenerated a) = true
      · rcases hwp : genPlanWhere st w (getNodeD st.arena mp.root).colNames with ⟨st3, r2⟩
        have hwp' : runPlanner st (w.planFn (getNodeD st.arena mp.root).colNames)
            = (st3, r2) := hwp
        have hlow : st3.arena.getD i defaultPlanNode = st.arena.getD i defaultPlanNode := by
          have := runPlanner_getD_low st
            (w.planFn (getNodeD st.arena mp.root).colNames) i hi
          rw [hwp'] at this
          exact this
        cases r2 with
        | error e => simp only [filterOptionalMatch, hw, hf, hall, if_true, hwp]; exact hlow
        | ok wherePlan =>
            obtain ⟨u, hu, hule⟩ := runPlanner_ok_tail_ge st st3
              (w.planFn (getNodeD st.arena mp.root).colNames) wherePlan hwp'
            simp only [filterOptionalMatch, hw, hf, hall, if_true, hwp]
            rw [addInput_getD_low st3 wherePlan mp true i
              (fun u2 hu2 => by rw [hu] at hu2; cases hu2; omega)]
            exact hlow
      · simp [filterOptionalMatch, hw, hf, hall]

theorem filterOptionalMatch_length_ge (st : PlannerState) (mp : SubPlan)
    (m : MatchClauseContext) :
    st.arena.length ≤ (filterOptionalMatch st mp m).1.arena.length := by
  cases hw : m.whereCtx with
  | none => simp [filterOptionalMatch, hw]
  | some w =>
    cases hf : w.filter with
    | none => simp [filterOptionalMatch, hw, hf]
    | some f =>
      by_cases hall : ((filterAliasNames f).all fun a => hasAlias m.aliasesGenerated a) = true
      · rcases hwp : genPlanWhere st w (getNodeD st.arena mp.root).colNames with ⟨st3, r2⟩
        have hwp' : runPlanner st (w.planFn (getNodeD st.arena mp.root).colNames)
            = (st3, r2) := hwp
        have hge : st.arena.length ≤ st3.arena.length := by
          have := runPlanner_length_ge st (w.planFn (getNodeD st.arena mp.root).colNames)
          rw [hwp'] at this
          exact this
        cases r2 with
        | error e => simp only [filterOptionalMatch, hw, hf, hall, if_true, hwp]; exact hge
        | ok wherePlan =>
            simp only [filterOptionalMatch, hw, hf, hall, if_true, hwp, addInput]
            rw [setInputVarAt_length, setDep0At_length]
            exact hge
      · simp [filterOptionalMatch, hw, hf, hall]

theorem innerJoin_getD_low (st : PlannerState) (l r : SubPlan) (keys : List String)
    (i : Nat) (hi : i < st.arena.length) :
    (innerJoin st l r keys).1.arena.getD i defaultPlanNode
      = st.arena.getD i defaultPlanNode := by
  simp only [innerJoin]
  exact List.getD_append _ _ _ _ hi

theorem leftJoin_getD_low (st : PlannerState) (l r : SubPlan) (keys : List String)
    (i : Nat) (hi : i < st.arena.length) :
    (leftJoin st l r keys).1.arena.getD i defaultPlanNode
      = st.arena.getD i defaultPlanNode := by
  simp only [leftJoin]
  exact List.getD_append _ _ _ _ hi

/-- Claim C8: for every fold of a matching clause into a non-empty
accumulator with a non-empty shared-alias set whose match fragment's tail is
an Argument node, connectMatchPlan rebinds that tail's input variable to the
accumulator root's output variable before joining, in the optional (leftJoin)
case as well as the non-optional (innerJoin) case. -/
theorem c8_argument_rebind
    (st st1 : PlannerState) (qp mp : SubPlan) (m : MatchClauseContext)
    (r t : Nat) (k : String) (ks : List String)
    (hroot : qp.root = some r)
    (hgen : genPlanMatch st m = (st1, .ok mp))
    (hint : computeIntersectedAliases m.aliasesGenerated m.aliasesAvailable = .ok (k :: ks))
    (htail : mp.tail = some t)
    (ht : t < st1.arena.length)
    (harg : (getNodeD st1.arena mp.tail).kind = .argument) :
    ∀ st' qp', connectMatchPlan st qp m = (st', qp', none) →
      (st'.arena.getD t defaultPlanNode).inputVar
        = (getNodeD st1.arena qp.root).outputVar := by
  intro st' qp' heq
  have hreb : (rebindArgumentTail st1 qp mp).arena
      = setInputVarAt st1.arena (some t) (getNodeD st1.arena qp.root).outputVar := by
    rw [rebindArgumentTail, if_pos harg, htail]
  have hreb_get : ((rebindArgumentTail st1 qp mp).arena.getD t defaultPlanNode).inputVar
      = (getNodeD st1.arena qp.root).outputVar := by
    rw [hreb]
    simp only [setInputVarAt]
    rw [getD_set_self _ _ _ _ ht]
  have hreb_len : (rebindArgumentTail st1 qp mp).arena.length = st1.arena.length :=
    rebindArgumentTail_length st1 qp mp
  cases ho : m.isOptional with
  | false =>
      rw [connectMatchPlan_innerJoin_eq st st1 qp mp m r k ks hroot hgen hint ho] at heq
      have hst' : (innerJoin (rebindArgumentTail st1 qp mp) qp mp (k :: ks)).1 = st' :=
        congrArg Prod.fst heq
      rw [← hst']
      rw [innerJoin_getD_low _ _ _ _ t (by omega)]
      exact hreb_get
  | true =>
      rcases hfm : filterOptionalMatch (rebindArgumentTail st1 qp mp) mp m with ⟨st3, r3⟩
      cases r3 with
      | error e =>
          rw [connectMatchPlan_leftJoin_err_eq st st1 st3 qp mp m r k ks e
            hroot hgen hint ho hfm] at heq
          simp at heq
      | ok filtered =>
          rw [connectMatchPlan_leftJoin_ok_eq st st1 st3 qp mp filtered m r k ks
            hroot hgen hint ho hfm] at heq
          have hst' : (leftJoin st3 qp filtered (k :: ks)).1 = st' :=
            congrArg Prod.fst heq
          rw [← hst']
          have hst3 : (filterOptionalMatch (rebindArgumentTail st1 qp mp) mp m).1 = st3 :=
            congrArg Prod.fst hfm
          have hlow : st3.arena.getD t defaultPlanNode
              = (rebindArgumentTail st1 qp mp).arena.getD t defaultPlanNode := by
            rw [← hst3]
            exact filterOptionalMatch_getD_low _ _ _ t (by omega)
          have hlen3 : (rebindArgumentTail st1 qp mp).arena.length ≤ st3.arena.length := by
            have := filterOptionalMatch_length_ge (rebindArgumentTail st1 qp mp) mp m
            rw [hst3] at this
            exact this
          rw [leftJoin_getD_low _ _ _ _ t (by omega)]
          rw [hlow]
          exact hreb_get

theorem setDep0At_getD_kind (arena : List PlanNode) (jo : Option Nat) (d i : Nat) :
    ((setDep0At arena jo d).getD i defaultPlanNode).kind
      = (arena.getD i defaultPlanNode).kind := by
  cases jo with
  | none => rfl
  | some j =>
      by_cases hij : i = j
      · subst hij
        by_cases hj : i < arena.length
        · simp only [setDep0At]
          rw [getD_set_self _ _ _ _ hj]
        · have hlen : arena.length ≤ i := by omega
          simp only [setDep0At]
          rw [List.getD_eq_default _ _ (by simpa using hlen), List.getD_eq_default _ _ hlen]
      · simp only [setDep0At]
        rw [getD_set_ne _ _ _ _ _ hij]

/-- Claim C2: for every successful run of transform, exactly one Start node
appears in the final plan whenever anchoring happened: starting from a fresh
planner state with no Start nodes, a run that ends with tailConnected = true
contains exactly one Start node regardless of the number of matching clauses
and query parts, because the first anchoring makes a single Start node the
accumulator's tail and sets the flag, and no later part inserts another. -/
theorem c2_single_start_node (st st' : PlannerState) (parts : List QueryPart) (plan : SubPlan)
    (h0 : st.tailConnected = false)
    (hstart0 : countStart st.arena = 0)
    (hns : ∀ p ∈ parts, p.noStart)
    (hrun : transform st .kMatch parts = (st', .ok plan))
    (hconn : st'.tailConnected = true) :
    countStart st'.arena = 1
      ∧ (∀ sta : PlannerState, ∀ qpa : SubPlan,
          sta.tailConnected = false →
          (getNodeD sta.arena qpa.tail).singleInput = true →
          (anchorTail sta qpa).2.tail = some sta.arena.length
            ∧ (getNodeD (anchorTail sta qpa).1.arena (some sta.arena.length)).kind = .start
            ∧ (anchorTail sta qpa).1.tailConnected = true) := by
  constructor
  · have hb := transform_balance st .kMatch parts hns
    rw [hrun] at hb
    replace hb : startBalance st st' := hb
    simp only [startBalance, h0, hconn, Bool.toNat_false, Bool.toNat_true, hstart0] at hb
    omega
  · intro sta qpa htc hsi
    have htc2 : ¬ (sta.tailConnected = true) := by simp [htc]
    simp only [anchorTail, hsi, eq_self_iff_true, if_true, nextAnonVar, mkStartNode, htc,
      Bool.false_eq_true, if_false]
    refine ⟨?_, ?_, ?_⟩
    · simp [setInputVarAt_length]
    · simp only [getNodeD, setInputVarAt_length]
      rw [setDep0At_getD_kind]
      have hlv : sta.arena.length
          = (setInputVarAt sta.arena qpa.tail ("__var_" ++ toString sta.anonCounter)).length :=
        (setInputVarAt_length _ _ _).symm
      rw [hlv, getD_append_self]
    · trivial

/-! ### Concrete fixtures for the witnesses -/

/-- A generic single-input plan node used by the concrete fragments. -/
def wNode (tag : Nat) (ov : String) (cols : List String) : PlanNode :=
  { kind := .other tag, deps := [], inputVar := "", outputVar := ov,
    colNames := cols, joinKeys := [], singleInput := true }

/-- An Argument plan node used by the concrete match fragments. -/
def wArgNode (ov : String) (cols : List String) : PlanNode :=
  { kind := .argument, deps := [], inputVar := "", outputVar := ov,
    colNames := cols, joinKeys := [], singleInput := true }

/-- The accumulator node of the one-node starting state. -/
def wAcc : PlanNode := wNode 1 "p0" ["x"]

/-- A starting state whose accumulator plan owns one node. -/
def wSt : PlannerState := { arena := [wAcc], anonCounter := 0, tailConnected := false }

/-- The accumulator sub-plan of `wSt`. -/
def wQp : SubPlan := { root := some 0, tail := some 0 }

/-- The empty accumulator. -/
def wQpE : SubPlan := { root := none, tail := none }

/-- The empty starting state. -/
def wStEmpty : PlannerState := { arena := [], anonCounter := 0, tailConnected := false }

/-- A one-node match fragment whose tail is an Argument node. -/
def wArgFrag : FragmentSpec :=
  { nodes := [wArgNode "m0" ["x"]], rootIdx := 0, tailIdx := 0 }

/-- A one-node match fragment with an ordinary node. -/
def wPlainFrag : FragmentSpec :=
  { nodes := [wNode 3 "m0" ["y"]], rootIdx := 0, tailIdx := 0 }

/-- A one-node filter fragment parameterized by its input columns. -/
def wFilterFrag (cols : List String) : FragmentSpec :=
  { nodes := [wNode 4 "f0" cols], rootIdx := 0, tailIdx := 0 }

/-- A one-node boundary fragment parameterized by its input columns. -/
def wRetFrag (cols : List String) : FragmentSpec :=
  { nodes := [wNode 5 "r0" cols], rootIdx := 0, tailIdx := 0 }

/-- Non-optional clause sharing alias x with the accumulator. -/
def wM1 : MatchClauseContext :=
  { isOptional := false, whereCtx := none,
    aliasesGenerated := [("x", .node)], aliasesAvailable := [("x", .node)],
    planResult := .ok wArgFrag }

/-- The where context whose filter references the foreign alias z. -/
def wW3 : WhereClauseContext :=
  { filter := some (.label "z"), planFn := fun cols => .ok (wFilterFrag cols) }

/-- Optional clause whose WHERE filter references an alias it did not generate. -/
def wM3 : MatchClauseContext :=
  { isOptional := true, whereCtx := some wW3,
    aliasesGenerated := [("x", .node)], aliasesAvailable := [("x", .node)],
    planResult := .ok wArgFrag }

/-- The where context whose filter references the earlier-bound alias x. -/
def wW3E : WhereClauseContext :=
  { filter := some (.label "x"), planFn := fun cols => .ok (wFilterFrag cols) }

/-- Optional clause sharing no alias with the accumulator, whose WHERE filter
references the alias x bound by an earlier clause (available, not
generated). -/
def wM3E : MatchClauseContext :=
  { isOptional := true, whereCtx := some wW3E,
    aliasesGenerated := [("y", .node)], aliasesAvailable := [("x", .node)],
    planResult := .ok wPlainFrag }

/-- Clause binding x to Edge while x is available as Node. -/
def wM4 : MatchClauseContext :=
  { isOptional := false, whereCtx := none,
    aliasesGenerated := [("x", .edge)], aliasesAvailable := [("x", .node)],
    planResult := .ok wArgFrag }

/-- Clause sharing the EdgeList-typed alias e with the accumulator. -/
def wM5 : MatchClauseContext :=
  { isOptional := false, whereCtx := none,
    aliasesGenerated := [("e", .edgeList)], aliasesAvailable := [("e", .edgeList)],
    planResult := .ok wArgFrag }

/-- The where context of the non-optional filtered clause. -/
def wW7 : WhereClauseContext :=
  { filter := some (.label "x"), planFn := fun cols => .ok (wFilterFrag cols) }

/-- Non-optional clause carrying a WHERE sub-clause. -/
def wM7 : MatchClauseContext :=
  { isOptional := false, whereCtx := some wW7,
    aliasesGenerated := [("x", .node)], aliasesAvailable := [],
    planResult := .ok wArgFrag }

/-- Clause with no alias shared with the accumulator. -/
def wM10 : MatchClauseContext :=
  { isOptional := false, whereCtx := none,
    aliasesGenerated := [("y", .node)], aliasesAvailable := [("x", .node)],
    planResult := .ok wPlainFrag }

/-- The boundary clause context of the concrete query. -/
def wB : BoundaryContext :=
  { kind := .kReturn, inputColNames := [], planFn := fun cols => .ok (wRetFrag cols) }

/-- A clause for the whole-query witness: a plain first match clause. -/
def wMA : MatchClauseContext :=
  { isOptional := false, whereCtx := none,
    aliasesGenerated := [("x", .node)], aliasesAvailable := [],
    planResult := .ok (FragmentSpec.mk [wNode 2 "a0" ["x"]] 0 0) }

/-- The single query part of the whole-query witness. -/
def wPart : QueryPart := { matchs := [wMA], boundary := wB }

/-- The part list of the whole-query witness. -/
def wParts : List QueryPart := [wPart]

/-- The state after allocating the Argument match fragment over `wSt`. -/
def wSt1 : PlannerState :=
  { arena := [wAcc, wArgNode "m0" ["x"]], anonCounter := 0, tailConnected := false }

/-- The match fragment allocated over `wSt`. -/
def wMp : SubPlan := { root := some 1, tail := some 1 }

/-- The state after allocating the plain match fragment over `wSt`. -/
def wSt110 : PlannerState :=
  { arena := [wAcc, wNode 3 "m0" ["y"]], anonCounter := 0, tailConnected := false }

/-- The state after allocating the boundary fragment over `wSt`. -/
def wStB : PlannerState :=
  { arena := [wAcc, wNode 5 "r0" ["x"]], anonCounter := 0, tailConnected := false }

/-- The boundary fragment allocated over `wSt`. -/
def wBp : SubPlan := { root := some 1, tail := some 1 }

/-- The state after also allocating the filter fragment over `wSt1`. -/
def wSt27 : PlannerState :=
  { arena := [wAcc, wArgNode "m0" ["x"], wNode 4 "f0" ["x"]],
    anonCounter := 0, tailConnected := false }

/-- The filter fragment allocated over `wSt1`. -/
def wWp7 : SubPlan := { root := some 2, tail := some 2 }

/-! ### Witnesses -/

/-- Witness for C1 at a concrete non-optional clause sharing alias x. -/
theorem c1_witness :
    (connectMatchPlan wSt wQp wM1).2.2 = none
      ∧ (getNodeD (connectMatchPlan wSt wQp wM1).1.arena
          (connectMatchPlan wSt wQp wM1).2.1.root).kind = .biInnerJoin
      ∧ (getNodeD (connectMatchPlan wSt wQp wM1).1.arena
          (connectMatchPlan wSt wQp wM1).2.1.root).joinKeys = ["x"]
      ∧ (getNodeD (connectMatchPlan wSt wQp wM1).1.arena
          (connectMatchPlan wSt wQp wM1).2.1.root).deps.head? = some 0 :=
  (c1_join_kind_selection wSt wSt1 wQp wMp wM1 0 ["x"]
    (by decide) (by decide) (by decide)).2.1 (by decide) (by decide)

/-- Witness for C2 at a concrete one-part query. -/
theorem c2_witness :
    countStart (transform wStEmpty SentenceKind.kMatch wParts).1.arena = 1 :=
  (c2_single_start_node wStEmpty (transform wStEmpty SentenceKind.kMatch wParts).1 wParts
    { root := some 1, tail := some 2 }
    (by decide) (by decide)
    (by
      intro p hp
      simp only [wParts, List.mem_singleton] at hp
      subst hp
      constructor
      · intro mm hm
        simp only [wPart, List.mem_singleton] at hm
        subst hm
        constructor
        · rfl
        · intro w hw
          rw [show wMA.whereCtx = none from rfl] at hw
          cases hw
      · intro cols
        rfl)
    (by decide) (by decide)).1

/-- Counterexample for C3 as originally stated: the optional clause wM3E
carries a WHERE filter referencing the variable x, which an earlier,
already-folded clause bound (x is available but not generated by wM3E), yet,
because the clause shares no alias with the accumulator, connectMatchPlan
succeeds via cartesian product (Status::OK, a plan root is produced) instead
of failing with the unsupported-optional-filter-scope semantic error. -/
theorem c3_counterexample :
    wM3E.isOptional = true
      ∧ wM3E.whereCtx = some wW3E
      ∧ wW3E.filter = some (.label "x")
      ∧ filterAliasNames (.label "x") = ["x"]
      ∧ hasAlias wM3E.aliasesGenerated "x" = false
      ∧ hasAlias wM3E.aliasesAvailable "x" = true
      ∧ (connectMatchPlan wSt wQp wM3E).2.2 = none
      ∧ (connectMatchPlan wSt wQp wM3E).2.1.root = some 2 :=
  ⟨rfl, rfl, rfl, by decide, by decide, by decide, by decide, by decide⟩

/-- Witness for C3 at a concrete optional clause whose filter references the
foreign alias z. -/
theorem c3_witness :
    (connectMatchPlan wSt wQp wM3).2
      = (wQp, some (.semanticError optionalWhereScopeMsg)) :=
  c3_optional_filter_scope wSt wSt1 wQp wMp wM3 0 "x" [] wW3 (.label "z")
    (by decide) (by decide) (by decide) (by decide) rfl rfl (by decide)

/-- Witness for C4 at a concrete clause binding x to Edge against an
available Node binding. -/
theorem c4_witness :
    connectMatchPlan wSt wQp wM4
      = (wSt1, wQp, some (.semanticError ("x" ++ " binding to different type: "
          ++ aliasTypeName .edge ++ " vs " ++ aliasTypeName .node))) :=
  c4_binding_type_conflict wSt wSt1 wQp wMp wM4 0 [] [] "x" .edge .node []
    (by decide) (by decide) (by decide) (by decide) (by decide) (by decide)

/-- Witness for C5 at a concrete clause sharing the EdgeList alias e. -/
theorem c5_witness :
    connectMatchPlan wSt wQp wM5
      = (wSt1, wQp, some (.semanticError
          ("e" ++ " defined with type EdgeList, which cannot be joined on"))) :=
  c5_edgelist_join_key wSt wSt1 wQp wMp wM5 0 [] [] "e" []
    (by decide) (by decide) (by decide) (by decide) (by decide)

/-- Witness for C6 at the concrete boundary clause over a non-empty
accumulator. -/
theorem c6_witness :
    connectBoundary wSt wQp wB
      = ((addInput wStB wBp wQp false).1, (addInput wStB wBp wQp false).2, none) :=
  (c6_boundary_connection wSt wQp wB).1 0 wStB wBp (by decide) (by decide)

/-- Witness for C7 at a concrete non-optional clause carrying a WHERE
sub-clause. -/
theorem c7_witness :
    foldOneMatch wSt wQpE wM7
      = ((addInput wSt27 wWp7 wMp true).1, (addInput wSt27 wWp7 wMp true).2, none) :=
  (c7_filter_splice wSt wSt1 wSt27 wQpE wMp wWp7 wM7 wW7 (by decide) rfl).1
    (by decide) (by decide)

/-- Witness for C8 at the concrete Argument-tailed match fragment. -/
theorem c8_witness :
    ((connectMatchPlan wSt wQp wM1).1.arena.getD 1 defaultPlanNode).inputVar
      = (getNodeD wSt1.arena wQp.root).outputVar :=
  c8_argument_rebind wSt wSt1 wQp wMp wM1 0 1 "x" []
    (by decide) (by decide) (by decide) (by decide) (by decide) (by decide)
    (connectMatchPlan wSt wQp wM1).1 (connectMatchPlan wSt wQp wM1).2.1 (by decide)

/-- Witness for C9 at a concrete erroring fold. -/
theorem c9_witness :
    (connectMatchPlan wSt wQp wM4).2.1 = wQp :=
  c9_error_atomicity wSt wQp wM4 (connectMatchPlan wSt wQp wM4).1
    (connectMatchPlan wSt wQp wM4).2.1
    (.semanticError "x binding to different type: Edge vs Node") (by decide)

/-- Witness for C10 at a concrete clause with no shared alias. -/
theorem c10_witness :
    (connectMatchPlan wSt wQp wM10).2.1.tail = wQp.tail
      ∧ (connectMatchPlan wSt wQp wM10).2.1.root = some wSt110.arena.length
      ∧ (getNodeD (connectMatchPlan wSt wQp wM10).1.arena
          (connectMatchPlan wSt wQp wM10).2.1.root).kind = .biCartesianProduct
      ∧ (connectMatchPlan wSt wQp wM10).2.2 = none
      ∧ (connectMatchPlan wSt wQp wM10).1.arena.length = wSt110.arena.length + 1
      ∧ (connectMatchPlan wSt wQp wM10).1.anonCounter = wSt110.anonCounter :=
  c10_cartesian_frame wSt wSt110 wQp wMp wM10 0 (by decide) (by decide) (by decide)

end MatchPlannerModel
